import Mathlib

set_option maxRecDepth 8000

/-! Formal model of `gaussian_exponential_mixture.py`.

The estimator state is embedded shallowly: the two `GaussianExponentialParameters`
objects and the two frozen scipy distributions (`self.norm`, `self.expon`) become
explicit fields of a `GaussianExponentialMixture` record, and every mutating
method becomes a state-to-state function.  Numbers are exact rationals.  The
external numeric collaborators (`stats.norm(...).pdf`, `stats.expon(...).pdf`,
their `logpdf` counterparts, and `math.sqrt`) are not part of this repository;
they are modelled as an explicit record `ExternalDensities` of function
parameters, exactly as the spec treats them (collaborators supplying density
values).  Log-density values are carried in an extended type `ExtFloat` with
NaN and signed infinities so that `np.nan_to_num` can be modelled faithfully.
-/

/-- Result of a floating-point log-density evaluation: a finite value
(modelled as a rational), a signed infinity, or NaN. -/
inductive ExtFloat where
  | fin (r : ℚ)
  | pinf
  | ninf
  | nan
deriving DecidableEq

/-- The largest finite IEEE-754 double, `(2^53 - 1) * 2^971`
(= 1.7976931348623157e308). -/
def FLOAT_MAX : ℚ := (2 ^ 53 - 1) * 2 ^ 971

/-- Models `np.nan_to_num` with its default arguments: NaN becomes `0`,
`inf` becomes the largest finite double, `-inf` its negation, and finite
values pass through unchanged. -/
def nan_to_num : ExtFloat → ℚ
  | ExtFloat.fin r => r
  | ExtFloat.pinf => FLOAT_MAX
  | ExtFloat.ninf => -FLOAT_MAX
  | ExtFloat.nan => 0

/-- A Python float value as seen by the `==` operator: either a finite real
number or NaN (infinities play no role in the pdf-value guards). -/
inductive PVal where
  | fin (q : ℚ)
  | nan
deriving DecidableEq

/-- IEEE-754 `==` on Python float values: two finite values compare equal
exactly when they are equal, and NaN compares unequal to everything,
itself included. -/
def pyFloatEq : PVal → PVal → Bool
  | PVal.fin a, PVal.fin b => decide (a = b)
  | _, _ => false

/-- The test `density == np.nan` performed on a density value in
`_expectation_is_gaussian` (lines 94 and 96 of the source): the right-hand
side is the NaN sentinel `np.nan`. -/
def float_eq_nan (d : ℚ) : Bool := pyFloatEq (PVal.fin d) PVal.nan

/-- The two guard branches at the top of `_expectation_is_gaussian`
(lines 94-97), over possibly-NaN density values: `some v` means the guard
fires and the method returns `v` early, `none` means execution falls
through to the proportion test and the ratio. -/
def nan_guard_branch (gaussian_density exponential_density : PVal) : Option ℚ :=
  if pyFloatEq exponential_density PVal.nan then some 1
  else if pyFloatEq gaussian_density PVal.nan then some 0
  else none

/-- The external numeric primitives used by the estimator, as the spec's
collaborators (§6): the scipy pdf/logpdf primitives, taken as functions of
(location, scale, x), and `math.sqrt`. -/
structure ExternalDensities where
  norm_pdf : ℚ → ℚ → ℚ → ℚ
  expon_pdf : ℚ → ℚ → ℚ → ℚ
  norm_logpdf : ℚ → ℚ → ℚ → ExtFloat
  expon_logpdf : ℚ → ℚ → ℚ → ExtFloat
  sqrt : ℚ → ℚ

/-- `GaussianExponentialParameters`: the four scalar parameters. -/
structure GaussianExponentialParameters where
  beta : ℚ
  mu : ℚ
  sigma : ℚ
  proportion : ℚ
deriving DecidableEq

/-- `GaussianExponentialParameters.as_list` (line 38). -/
def GaussianExponentialParameters.as_list (p : GaussianExponentialParameters) : List ℚ :=
  [p.beta, p.mu, p.sigma, p.proportion]

/-- `GaussianExponentialParameters.max_parameter_difference` (line 46):
`max([abs(i[0] - i[1]) for i in zip(self.as_list(), other.as_list())])`.
Python's builtin `max` over this always-nonempty list of nonnegative values
is modelled as a fold of `max` with base `0` (inert, since every entry is an
absolute value). -/
def GaussianExponentialParameters.max_parameter_difference
    (p other : GaussianExponentialParameters) : ℚ :=
  ((p.as_list.zip other.as_list).map fun i => |i.1 - i.2|).foldr max 0

/-- `GaussianExponentialMixture` state: the data, the fixed exponential
location offset, the loop controls, the two parameter sets, and the frozen
location/scale of the two live scipy distributions `self.norm` and
`self.expon`. -/
structure GaussianExponentialMixture where
  data : List ℚ
  exp_loc : ℚ
  max_iterations : ℕ
  convergence_tolerance : ℚ
  parameters : GaussianExponentialParameters
  parameters_updated : GaussianExponentialParameters
  norm_loc : ℚ
  norm_scale : ℚ
  expon_loc : ℚ
  expon_scale : ℚ
deriving DecidableEq

/-- `GaussianExponentialMixture.__init__` (lines 64-78): both parameter sets
are built from the same initial values, and the live distributions are frozen
from those initial values (`expon` at the fixed location offset with scale
`beta`, `norm` at `mu` with scale `sigma`). -/
def GaussianExponentialMixture.init (data : List ℚ) (exp_loc : ℚ) (max_iterations : ℕ)
    (convergence_tolerance : ℚ) (p : GaussianExponentialParameters) :
    GaussianExponentialMixture :=
  { data := data
    exp_loc := exp_loc
    max_iterations := max_iterations
    convergence_tolerance := convergence_tolerance
    parameters := p
    parameters_updated := p
    norm_loc := p.mu
    norm_scale := p.sigma
    expon_loc := exp_loc
    expon_scale := p.beta }

/-- `_apply_and_sum` (line 80): apply `func` to every data point and sum. -/
def apply_and_sum (m : GaussianExponentialMixture) (func : ℚ → ℚ) : ℚ :=
  (m.data.map func).sum

/-- `_expectation_is_gaussian` (lines 91-102).  The local names of the source
(`gaussian_density`, `exponential_density`, `probability_gaussian`,
`probability_exponential`) are inlined; the two NaN guards are the
comparisons `density == np.nan` modelled by `float_eq_nan`. -/
def expectation_is_gaussian (P : ExternalDensities) (m : GaussianExponentialMixture)
    (val : ℚ) : ℚ :=
  if float_eq_nan (P.expon_pdf m.expon_loc m.expon_scale val) then 1
  else if float_eq_nan (P.norm_pdf m.norm_loc m.norm_scale val) then 0
  else if m.parameters.proportion = 0 then 0
  else
    P.norm_pdf m.norm_loc m.norm_scale val * m.parameters.proportion /
      (P.norm_pdf m.norm_loc m.norm_scale val * m.parameters.proportion +
        P.expon_pdf m.expon_loc m.expon_scale val * (1 - m.parameters.proportion))

/-- The responsibility as a function of explicitly-listed density parameters
and mixing proportion (the spec's §4.2 formula, with the `proportion = 0`
short-circuit).  Used to express that the E-step depends only on the density
locations/scales and the proportion in force when it is evaluated. -/
def responsibility_at (P : ExternalDensities)
    (norm_loc norm_scale expon_loc expon_scale proportion val : ℚ) : ℚ :=
  if proportion = 0 then 0
  else
    P.norm_pdf norm_loc norm_scale val * proportion /
      (P.norm_pdf norm_loc norm_scale val * proportion +
        P.expon_pdf expon_loc expon_scale val * (1 - proportion))

/-- `_update_beta` (lines 104-109). -/
def update_beta (P : ExternalDensities) (m : GaussianExponentialMixture) :
    GaussianExponentialMixture :=
  { m with parameters_updated :=
      { m.parameters_updated with
        beta :=
          apply_and_sum m (fun x => (1 - expectation_is_gaussian P m x) * x) /
            apply_and_sum m (fun x => 1 - expectation_is_gaussian P m x) } }

/-- `_update_mu` (lines 111-116). -/
def update_mu (P : ExternalDensities) (m : GaussianExponentialMixture) :
    GaussianExponentialMixture :=
  { m with parameters_updated :=
      { m.parameters_updated with
        mu :=
          apply_and_sum m (fun x => expectation_is_gaussian P m x * x) /
            apply_and_sum m (fun x => expectation_is_gaussian P m x) } }

/-- `_update_sigma` (lines 118-124): note it reads `parameters_updated.mu`,
i.e. the value `_update_mu` just wrote. -/
def update_sigma (P : ExternalDensities) (m : GaussianExponentialMixture) :
    GaussianExponentialMixture :=
  { m with parameters_updated :=
      { m.parameters_updated with
        sigma :=
          P.sqrt
            (apply_and_sum m
                (fun x => expectation_is_gaussian P m x * (x - m.parameters_updated.mu) ^ 2) /
              apply_and_sum m (fun x => expectation_is_gaussian P m x)) } }

/-- `_update_proportion` (lines 126-131): Python sums the boolean comparison
results, so each data point contributes `1` when the (nan_to_num-coerced)
Gaussian log-density exceeds the exponential one and `0` otherwise. -/
def update_proportion (P : ExternalDensities) (m : GaussianExponentialMixture) :
    GaussianExponentialMixture :=
  { m with parameters_updated :=
      { m.parameters_updated with
        proportion :=
          apply_and_sum m
              (fun x =>
                if nan_to_num (P.norm_logpdf m.norm_loc m.norm_scale x) >
                    nan_to_num (P.expon_logpdf m.expon_loc m.expon_scale x) then 1 else 0) /
            (m.data.length : ℚ) } }

/-- The proportion update as claim C4 words it: every non-finite log-density
(NaN or ±infinity alike) is replaced by `0` before the comparison.  This is a
spec-side alternative to `update_proportion`, for comparison with the source's
`np.nan_to_num` behaviour. -/
def coerce_nonfinite_zero : ExtFloat → ℚ
  | ExtFloat.fin r => r
  | _ => 0

/-- `_update_proportion` as described by the claim (non-finite ↦ 0), otherwise
identical in shape to `update_proportion`. -/
def update_proportion_claim (P : ExternalDensities) (m : GaussianExponentialMixture) :
    GaussianExponentialMixture :=
  { m with parameters_updated :=
      { m.parameters_updated with
        proportion :=
          apply_and_sum m
              (fun x =>
                if coerce_nonfinite_zero (P.norm_logpdf m.norm_loc m.norm_scale x) >
                    coerce_nonfinite_zero (P.expon_logpdf m.expon_loc m.expon_scale x) then 1
                else 0) /
            (m.data.length : ℚ) } }

/-- `_sync_parameters` (lines 133-139): deep-copy `parameters_updated` into
`parameters` (a value copy in this model). -/
def sync_parameters (m : GaussianExponentialMixture) : GaussianExponentialMixture :=
  { m with parameters := m.parameters_updated }

/-- `_update_pdfs` (lines 141-148): refreeze the live distributions from the
candidate parameter set (and the fixed exponential location offset). -/
def update_pdfs (m : GaussianExponentialMixture) : GaussianExponentialMixture :=
  { m with
    norm_loc := m.parameters_updated.mu
    norm_scale := m.parameters_updated.sigma
    expon_loc := m.exp_loc
    expon_scale := m.parameters_updated.beta }

/-- `_check_parameter_differences` (lines 150-156). -/
def check_parameter_differences (m : GaussianExponentialMixture) : ℚ :=
  m.parameters.max_parameter_difference m.parameters_updated

/-- `_em_step` (lines 158-166): sync, then beta/mu/sigma updates, then the
density refresh, then the proportion update. -/
def em_step (P : ExternalDensities) (m : GaussianExponentialMixture) :
    GaussianExponentialMixture :=
  update_proportion P (update_pdfs (update_sigma P (update_mu P (update_beta P (sync_parameters m)))))

/-- The `while` loop of `fit` (lines 172-175), carrying the iteration counter:
returns the state at loop exit together with the final counter value (the
total number of EM steps performed, counting the unconditional first one). -/
def fitAux (P : ExternalDensities) (m : GaussianExponentialMixture) (iters : ℕ) :
    GaussianExponentialMixture × ℕ :=
  if h : iters < m.max_iterations ∧
      check_parameter_differences m > m.convergence_tolerance then
    fitAux P (em_step P m) (iters + 1)
  else (m, iters)
termination_by m.max_iterations - iters
decreasing_by
  show m.max_iterations - (iters + 1) < m.max_iterations - iters
  obtain ⟨h1, -⟩ := h
  omega

/-- `fit` (lines 168-176): one unconditional EM step, the bounded loop, and a
final sync. -/
def fit (P : ExternalDensities) (m : GaussianExponentialMixture) :
    GaussianExponentialMixture :=
  sync_parameters (fitAux P (em_step P m) 1).1

/-- The total number of EM steps `fit` performs (the final value of `iters`). -/
def fit_steps (P : ExternalDensities) (m : GaussianExponentialMixture) : ℕ :=
  (fitAux P (em_step P m) 1).2

/-- `pdf` (lines 178-181). -/
def pdf (P : ExternalDensities) (m : GaussianExponentialMixture) (val : ℚ) : ℚ :=
  (1 - m.parameters.proportion) * P.expon_pdf m.expon_loc m.expon_scale val +
    m.parameters.proportion * P.norm_pdf m.norm_loc m.norm_scale val

/-- The invariant of claim C9: the frozen location/scale of the live
distributions agree with the candidate parameter set (and the fixed
exponential location offset). -/
def pdfs_consistent (m : GaussianExponentialMixture) : Prop :=
  m.norm_loc = m.parameters_updated.mu ∧
  m.norm_scale = m.parameters_updated.sigma ∧
  m.expon_loc = m.exp_loc ∧
  m.expon_scale = m.parameters_updated.beta

/-- Concrete external densities used by the witness instantiations: constant
pdf values, linear log-density values, identity square root. -/
def P0 : ExternalDensities :=
  { norm_pdf := fun _ _ _ => 1
    expon_pdf := fun _ _ _ => 1
    norm_logpdf := fun _ _ x => ExtFloat.fin x
    expon_logpdf := fun _ _ _ => ExtFloat.fin 0
    sqrt := fun q => q }

/-- Concrete estimator state used by the witness instantiations. -/
def m0 : GaussianExponentialMixture :=
  GaussianExponentialMixture.init [1, 2] 0 2 (1 / 1000) ⟨1, 0, 100, 1 / 2⟩

/-- External densities for the C4 counterexample: both pdfs are constant `1`
(so responsibilities are well defined), the Gaussian log-density is the
finite value `-1`, and the exponential log-density is `-inf` below the
location and `0` on the support, mirroring scipy's `expon.logpdf`, which
returns `-inf` (log of a zero density) strictly below the location. -/
def Pc4 : ExternalDensities :=
  { norm_pdf := fun _ _ _ => 1
    expon_pdf := fun _ _ _ => 1
    norm_logpdf := fun _ _ _ => ExtFloat.fin (-1)
    expon_logpdf := fun loc _ x => if x < loc then ExtFloat.ninf else ExtFloat.fin 0
    sqrt := fun q => q }

/-- Estimator state for the C4 counterexample: a single data point `-1`
strictly below the exponential location `0`. -/
def mc4 : GaussianExponentialMixture :=
  GaussianExponentialMixture.init [-1] 0 10 (1 / 1000) ⟨1, 0, 100, 1 / 2⟩

/-- The C4 counterexample state just before the proportion update: the EM step
on `mc4` after sync, the beta/mu/sigma updates, and the density refresh. -/
def mc4_mid : GaussianExponentialMixture :=
  update_pdfs (update_sigma Pc4 (update_mu Pc4 (update_beta Pc4 (sync_parameters mc4))))

/-! ### Helper lemmas -/

/-- The comparison `d == np.nan` is `false` for every density value `d`. -/
theorem float_eq_nan_eq_false (d : ℚ) : float_eq_nan d = false := rfl

/-- `em_step` never changes `max_iterations`. -/
theorem em_step_max_iterations (P : ExternalDensities) (m : GaussianExponentialMixture) :
    (em_step P m).max_iterations = m.max_iterations := rfl

/-- Summing a 0/1 indicator over a list counts the elements satisfying the
predicate. -/
theorem sum_ite_eq_countP (p : ℚ → Prop) [DecidablePred p] (l : List ℚ) :
    (l.map fun x => if p x then (1 : ℚ) else 0).sum =
      ((l.countP fun x => decide (p x) : ℕ) : ℚ) := by
  induction l with
  | nil => simp
  | cons a t ih =>
    by_cases h : p a
    · simp [List.countP_cons, h, ih]
      ring
    · simp [List.countP_cons, h, ih]

/-- The candidate proportion written by `_update_proportion` is the count of
data points passing the log-density comparison, divided by the sample size. -/
theorem update_proportion_proportion_eq (P : ExternalDensities)
    (m : GaussianExponentialMixture) :
    (update_proportion P m).parameters_updated.proportion =
      ((m.data.countP fun x =>
          decide (nan_to_num (P.norm_logpdf m.norm_loc m.norm_scale x) >
            nan_to_num (P.expon_logpdf m.expon_loc m.expon_scale x)) : ℕ) : ℚ) /
        (m.data.length : ℚ) := by
  show (m.data.map fun x =>
      if nan_to_num (P.norm_logpdf m.norm_loc m.norm_scale x) >
          nan_to_num (P.expon_logpdf m.expon_loc m.expon_scale x) then (1 : ℚ)
      else 0).sum / (m.data.length : ℚ) = _
  rw [sum_ite_eq_countP]

/-! ### Claim theorems -/

/-- Claim C7: the two degenerate-guard branches of the responsibility
computation are unreachable: the comparison `d == np.nan` uses IEEE `==`,
which is false for every value `d`, including NaN itself, so the guard
selector never produces an early return. -/
theorem c7_nan_guards_unreachable (g e : PVal) :
    pyFloatEq e PVal.nan = false ∧
    pyFloatEq g PVal.nan = false ∧
    nan_guard_branch g e = none := by
  refine ⟨?_, ?_, ?_⟩
  · cases e <;> rfl
  · cases g <;> rfl
  · cases g <;> cases e <;> rfl

/-- Claim C8: `max_parameter_difference` is the maximum of the four aligned
absolute field differences, it is symmetric, and it vanishes exactly when all
four fields agree. -/
theorem c8_max_parameter_difference_spec (p q : GaussianExponentialParameters) :
    p.max_parameter_difference q =
      max |p.beta - q.beta|
        (max |p.mu - q.mu| (max |p.sigma - q.sigma| |p.proportion - q.proportion|)) ∧
    p.max_parameter_difference q = q.max_parameter_difference p ∧
    (p.max_parameter_difference q = 0 ↔
      p.beta = q.beta ∧ p.mu = q.mu ∧ p.sigma = q.sigma ∧ p.proportion = q.proportion) := by
  have key : ∀ r s : GaussianExponentialParameters, r.max_parameter_difference s =
      max |r.beta - s.beta|
        (max |r.mu - s.mu| (max |r.sigma - s.sigma| |r.proportion - s.proportion|)) := by
    intro r s
    have h0 : r.max_parameter_difference s =
        max |r.beta - s.beta|
          (max |r.mu - s.mu|
            (max |r.sigma - s.sigma| (max |r.proportion - s.proportion| 0))) := by
      simp [GaussianExponentialParameters.max_parameter_difference,
        GaussianExponentialParameters.as_list]
    rw [h0, max_eq_left (abs_nonneg (r.proportion - s.proportion))]
  refine ⟨key p q, ?_, ?_⟩
  · rw [key p q, key q p, abs_sub_comm p.beta, abs_sub_comm p.mu, abs_sub_comm p.sigma,
      abs_sub_comm p.proportion]
  · rw [key p q]
    constructor
    · intro h
      have h1 : |p.beta - q.beta| ≤ 0 := h ▸ le_max_left _ _
      have h2 : |p.mu - q.mu| ≤ 0 :=
        h ▸ (le_max_left _ _).trans (le_max_right _ _)
      have h3 : |p.sigma - q.sigma| ≤ 0 :=
        h ▸ ((le_max_left _ _).trans (le_max_right _ _)).trans (le_max_right _ _)
      have h4 : |p.proportion - q.proportion| ≤ 0 :=
        h ▸ ((le_max_right _ _).trans (le_max_right _ _)).trans (le_max_right _ _)
      exact ⟨sub_eq_zero.mp (abs_nonpos_iff.mp h1), sub_eq_zero.mp (abs_nonpos_iff.mp h2),
        sub_eq_zero.mp (abs_nonpos_iff.mp h3), sub_eq_zero.mp (abs_nonpos_iff.mp h4)⟩
    · rintro ⟨h1, h2, h3, h4⟩
      simp [h1, h2, h3, h4]

/-- Claim C9: after construction and after every completed EM step, the live
Gaussian density is frozen at the candidate's `mu`/`sigma` and the live
exponential density at the fixed location offset and the candidate's `beta`. -/
theorem c9_pdfs_consistency :
    (∀ (data : List ℚ) (exp_loc : ℚ) (max_iterations : ℕ) (convergence_tolerance : ℚ)
        (p : GaussianExponentialParameters),
      pdfs_consistent
        (GaussianExponentialMixture.init data exp_loc max_iterations convergence_tolerance p)) ∧
    (∀ (P : ExternalDensities) (m : GaussianExponentialMixture),
      pdfs_consistent (em_step P m)) :=
  ⟨fun _ _ _ _ _ => ⟨rfl, rfl, rfl, rfl⟩, fun _ _ => ⟨rfl, rfl, rfl, rfl⟩⟩

/-- Claim C6: `pdf` evaluates the two-component mixture density using the
proportion of the committed parameter set and the live frozen densities, and
its value does not depend on the candidate parameter set at all. -/
theorem c6_pdf_mixture_formula (P : ExternalDensities) (m : GaussianExponentialMixture)
    (val : ℚ) :
    pdf P m val =
      (1 - m.parameters.proportion) * P.expon_pdf m.expon_loc m.expon_scale val +
        m.parameters.proportion * P.norm_pdf m.norm_loc m.norm_scale val ∧
    (∀ q : GaussianExponentialParameters,
      pdf P { m with parameters_updated := q } val = pdf P m val) :=
  ⟨rfl, fun _ => rfl⟩

/-- Claim C1: when the live densities are consistent with the current
parameter set (as they are whenever the method is invoked), the E-step
responsibility is `pG / (pG + pE)` with `pG = GaussianPdf(x; mu, sigma) *
proportion` and `pE = ExponentialPdf(x; location, beta) * (1 - proportion)`,
except that it returns exactly `0` when the proportion is `0`, before the
ratio is formed. -/
theorem c1_expectation_formula (P : ExternalDensities) (m : GaussianExponentialMixture)
    (val : ℚ)
    (h1 : m.norm_loc = m.parameters.mu) (h2 : m.norm_scale = m.parameters.sigma)
    (h3 : m.expon_loc = m.exp_loc) (h4 : m.expon_scale = m.parameters.beta) :
    expectation_is_gaussian P m val =
      if m.parameters.proportion = 0 then 0
      else
        P.norm_pdf m.parameters.mu m.parameters.sigma val * m.parameters.proportion /
          (P.norm_pdf m.parameters.mu m.parameters.sigma val * m.parameters.proportion +
            P.expon_pdf m.exp_loc m.parameters.beta val * (1 - m.parameters.proportion)) := by
  simp only [expectation_is_gaussian, float_eq_nan, pyFloatEq, Bool.false_eq_true, if_false,
    h1, h2, h3, h4]

/-- Witness for C1 at a concrete consistent state. -/
theorem c1_witness :
    (m0.norm_loc = m0.parameters.mu ∧ m0.norm_scale = m0.parameters.sigma ∧
      m0.expon_loc = m0.exp_loc ∧ m0.expon_scale = m0.parameters.beta) ∧
    expectation_is_gaussian P0 m0 5 =
      (if m0.parameters.proportion = 0 then 0
       else
        P0.norm_pdf m0.parameters.mu m0.parameters.sigma 5 * m0.parameters.proportion /
          (P0.norm_pdf m0.parameters.mu m0.parameters.sigma 5 * m0.parameters.proportion +
            P0.expon_pdf m0.exp_loc m0.parameters.beta 5 * (1 - m0.parameters.proportion))) :=
  ⟨⟨rfl, rfl, rfl, rfl⟩, c1_expectation_formula P0 m0 5 rfl rfl rfl rfl⟩

/-- Claim C2: in every EM step on a non-empty sample, the candidate `beta`
becomes `Σ[(1-r(x))·x] / Σ[(1-r(x))]` over the raw data values (no location
offset is subtracted), where `r` is the responsibility evaluated in the state
the step acts on — the first statement conjunct uses `r` exactly as the code
does (after the step's opening sync), and the second shows this `r` depends
only on the density parameters and candidate proportion as they stood at step
entry. -/
theorem c2_beta_update (P : ExternalDensities) (m : GaussianExponentialMixture)
    (h : m.data ≠ []) :
    (em_step P m).parameters_updated.beta =
      (m.data.map fun x => (1 - expectation_is_gaussian P (sync_parameters m) x) * x).sum /
        (m.data.map fun x => 1 - expectation_is_gaussian P (sync_parameters m) x).sum ∧
    (∀ val : ℚ, expectation_is_gaussian P (sync_parameters m) val =
      responsibility_at P m.norm_loc m.norm_scale m.expon_loc m.expon_scale
        m.parameters_updated.proportion val) :=
  ⟨rfl, fun _ => rfl⟩

/-- Witness for C2 at a concrete non-empty sample. -/
theorem c2_witness :
    m0.data ≠ [] ∧
    ((em_step P0 m0).parameters_updated.beta =
      (m0.data.map fun x => (1 - expectation_is_gaussian P0 (sync_parameters m0) x) * x).sum /
        (m0.data.map fun x => 1 - expectation_is_gaussian P0 (sync_parameters m0) x).sum ∧
    (∀ val : ℚ, expectation_is_gaussian P0 (sync_parameters m0) val =
      responsibility_at P0 m0.norm_loc m0.norm_scale m0.expon_loc m0.expon_scale
        m0.parameters_updated.proportion val)) :=
  ⟨by decide, c2_beta_update P0 m0 (by decide)⟩

/-- Claim C3: in every EM step on a non-empty sample, the candidate `mu`
becomes `Σ[r(x)·x] / Σ[r(x)]`, and the candidate `sigma` becomes
`sqrt(Σ[r(x)·(x - mu')²] / Σ[r(x)])` where `mu'` is the just-updated
candidate mean of this same step; the last conjunct shows the responsibility
`r` used by both updates depends only on the density parameters and candidate
proportion as they stood at step entry. -/
theorem c3_mu_sigma_updates (P : ExternalDensities) (m : GaussianExponentialMixture)
    (h : m.data ≠ []) :
    (em_step P m).parameters_updated.mu =
      (m.data.map fun x => expectation_is_gaussian P (sync_parameters m) x * x).sum /
        (m.data.map fun x => expectation_is_gaussian P (sync_parameters m) x).sum ∧
    (em_step P m).parameters_updated.sigma =
      P.sqrt
        ((m.data.map fun x =>
            expectation_is_gaussian P (sync_parameters m) x *
              (x - (em_step P m).parameters_updated.mu) ^ 2).sum /
          (m.data.map fun x => expectation_is_gaussian P (sync_parameters m) x).sum) ∧
    (∀ val : ℚ, expectation_is_gaussian P (sync_parameters m) val =
      responsibility_at P m.norm_loc m.norm_scale m.expon_loc m.expon_scale
        m.parameters_updated.proportion val) :=
  ⟨rfl, rfl, fun _ => rfl⟩

/-- Witness for C3 at a concrete non-empty sample. -/
theorem c3_witness :
    m0.data ≠ [] ∧
    ((em_step P0 m0).parameters_updated.mu =
      (m0.data.map fun x => expectation_is_gaussian P0 (sync_parameters m0) x * x).sum /
        (m0.data.map fun x => expectation_is_gaussian P0 (sync_parameters m0) x).sum ∧
    (em_step P0 m0).parameters_updated.sigma =
      P0.sqrt
        ((m0.data.map fun x =>
            expectation_is_gaussian P0 (sync_parameters m0) x *
              (x - (em_step P0 m0).parameters_updated.mu) ^ 2).sum /
          (m0.data.map fun x => expectation_is_gaussian P0 (sync_parameters m0) x).sum) ∧
    (∀ val : ℚ, expectation_is_gaussian P0 (sync_parameters m0) val =
      responsibility_at P0 m0.norm_loc m0.norm_scale m0.expon_loc m0.expon_scale
        m0.parameters_updated.proportion val)) :=
  ⟨by decide, c3_mu_sigma_updates P0 m0 (by decide)⟩

/-- Counterexample to claim C4 as stated: with a data point `-1` strictly
below the exponential location `0`, the exponential log-density is `-inf`;
the code's `np.nan_to_num` coerces it to the most negative finite double, so
the Gaussian log-density `-1` wins the comparison and the code sets the
candidate proportion to `1`, whereas the claim's reading (any non-finite
log-density treated as `0`) would make the comparison `-1 > 0` fail and set
it to `0`.  The first conjunct checks the step's proportion update acts on
exactly the mid-step state used by the claim-side computation. -/
theorem c4_counterexample :
    em_step Pc4 mc4 = update_proportion Pc4 mc4_mid ∧
    (em_step Pc4 mc4).parameters_updated.proportion = 1 ∧
    (update_proportion_claim Pc4 mc4_mid).parameters_updated.proportion = 0 := by
  refine ⟨rfl, ?_, ?_⟩ <;>
    norm_num [em_step, update_proportion, update_proportion_claim, update_pdfs, update_sigma,
      update_mu, update_beta, sync_parameters, mc4_mid, mc4, Pc4,
      GaussianExponentialMixture.init, apply_and_sum, expectation_is_gaussian, float_eq_nan,
      pyFloatEq, nan_to_num, coerce_nonfinite_zero, FLOAT_MAX]

/-- Claim C4 as amended: in every EM step, after the live densities have been
refreshed to the new `mu'`, `sigma'`, `beta'`, the candidate proportion is
the count of data points whose Gaussian log-density exceeds their exponential
log-density, divided by the sample size — where, before the comparison,
`np.nan_to_num` replaces a NaN log-density by `0` and a `±inf` log-density by
`±`the largest finite double, `(2^53 - 1)·2^971` (not by `0`). -/
theorem c4_amended_proportion (P : ExternalDensities) (m : GaussianExponentialMixture) :
    (em_step P m).parameters_updated.proportion =
      ((m.data.countP fun x =>
          decide (nan_to_num (P.norm_logpdf (em_step P m).parameters_updated.mu
              (em_step P m).parameters_updated.sigma x) >
            nan_to_num (P.expon_logpdf m.exp_loc (em_step P m).parameters_updated.beta x)) :
          ℕ) : ℚ) /
        (m.data.length : ℚ) ∧
    (∀ r : ℚ, nan_to_num (ExtFloat.fin r) = r) ∧
    nan_to_num ExtFloat.nan = 0 ∧
    nan_to_num ExtFloat.pinf = (2 ^ 53 - 1) * 2 ^ 971 ∧
    nan_to_num ExtFloat.ninf = -((2 ^ 53 - 1) * 2 ^ 971) :=
  ⟨update_proportion_proportion_eq P
      (update_pdfs (update_sigma P (update_mu P (update_beta P (sync_parameters m))))),
    fun _ => rfl, rfl, rfl, rfl⟩

/-- Claim C10: with non-empty data, the proportion written by the EM step's
proportion update is an integer count of passing points over the sample size,
hence lies in `[0, 1]` whatever the other parameters have become. -/
theorem c10_proportion_unit_interval (P : ExternalDensities)
    (m : GaussianExponentialMixture) (h : m.data ≠ []) :
    ∃ k : ℕ, k ≤ m.data.length ∧
      (em_step P m).parameters_updated.proportion = (k : ℚ) / (m.data.length : ℚ) ∧
      0 ≤ (em_step P m).parameters_updated.proportion ∧
      (em_step P m).parameters_updated.proportion ≤ 1 := by
  have hlen : 0 < m.data.length := List.length_pos.mpr h
  have hlenQ : (0 : ℚ) < (m.data.length : ℚ) := by exact_mod_cast hlen
  have hrepr : (em_step P m).parameters_updated.proportion =
      ((m.data.countP fun x =>
          decide (nan_to_num (P.norm_logpdf (em_step P m).parameters_updated.mu
              (em_step P m).parameters_updated.sigma x) >
            nan_to_num (P.expon_logpdf m.exp_loc (em_step P m).parameters_updated.beta x)) :
          ℕ) : ℚ) /
        (m.data.length : ℚ) :=
    update_proportion_proportion_eq P
      (update_pdfs (update_sigma P (update_mu P (update_beta P (sync_parameters m)))))
  refine ⟨m.data.countP fun x =>
      decide (nan_to_num (P.norm_logpdf (em_step P m).parameters_updated.mu
          (em_step P m).parameters_updated.sigma x) >
        nan_to_num (P.expon_logpdf m.exp_loc (em_step P m).parameters_updated.beta x)),
    List.countP_le_length _, hrepr, ?_, ?_⟩
  · rw [hrepr]
    positivity
  · rw [hrepr, div_le_one hlenQ]
    exact_mod_cast List.countP_le_length _

/-- Witness for C10 at a concrete non-empty sample. -/
theorem c10_witness :
    m0.data ≠ [] ∧
    (∃ k : ℕ, k ≤ m0.data.length ∧
      (em_step P0 m0).parameters_updated.proportion = (k : ℚ) / (m0.data.length : ℚ) ∧
      0 ≤ (em_step P0 m0).parameters_updated.proportion ∧
      (em_step P0 m0).parameters_updated.proportion ≤ 1) :=
  ⟨by decide, c10_proportion_unit_interval P0 m0 (by decide)⟩

/-- One unfolding of the `fit` loop. -/
theorem fitAux_unfold (P : ExternalDensities) (m : GaussianExponentialMixture) (n : ℕ) :
    fitAux P m n =
      if n < m.max_iterations ∧ check_parameter_differences m > m.convergence_tolerance then
        fitAux P (em_step P m) (n + 1)
      else (m, n) := by
  rw [fitAux]
  split <;> rename_i hc
  · rfl
  · rfl

/-- Behaviour of the `fit` loop: the counter never decreases, it is bounded by
`max_iterations` (when started within the bound), the state at exit is an
iterate of `em_step`, and every step beyond the entry one was taken only when
the counter was below the bound and the parameter distance exceeded the
tolerance. -/
theorem fitAux_spec (P : ExternalDensities) :
    ∀ (k : ℕ) (m : GaussianExponentialMixture) (n : ℕ), m.max_iterations - n ≤ k →
      n ≤ (fitAux P m n).2 ∧
      (n ≤ m.max_iterations → (fitAux P m n).2 ≤ m.max_iterations) ∧
      (fitAux P m n).1 = (em_step P)^[(fitAux P m n).2 - n] m ∧
      (∀ d : ℕ, n + d < (fitAux P m n).2 →
        n + d < ((em_step P)^[d] m).max_iterations ∧
        check_parameter_differences ((em_step P)^[d] m) >
          ((em_step P)^[d] m).convergence_tolerance) := by
  intro k
  induction k with
  | zero =>
    intro m n hk
    rw [fitAux_unfold]
    by_cases hc : n < m.max_iterations ∧
        check_parameter_differences m > m.convergence_tolerance
    · exact absurd hc.1 (by omega)
    · rw [if_neg hc]
      refine ⟨le_refl n, fun h => by omega, by simp, fun d hd => by simp at hd⟩
  | succ k ih =>
    intro m n hk
    rw [fitAux_unfold]
    by_cases hc : n < m.max_iterations ∧
        check_parameter_differences m > m.convergence_tolerance
    · rw [if_pos hc]
      have hk' : (em_step P m).max_iterations - (n + 1) ≤ k := by
        rw [em_step_max_iterations]
        omega
      obtain ⟨ih1, ih2, ih3, ih4⟩ := ih (em_step P m) (n + 1) hk'
      have hle : (fitAux P (em_step P m) (n + 1)).2 ≤ m.max_iterations := by
        have := ih2 (by rw [em_step_max_iterations]; omega)
        rw [em_step_max_iterations] at this
        exact this
      refine ⟨by omega, fun _ => hle, ?_, ?_⟩
      · rw [ih3]
        have hs : (fitAux P (em_step P m) (n + 1)).2 - n =
            ((fitAux P (em_step P m) (n + 1)).2 - (n + 1)) + 1 := by omega
        rw [hs, Function.iterate_succ_apply]
      · intro d hd
        match d with
        | 0 => simpa using hc
        | d + 1 =>
          have := ih4 d (by omega)
          rw [Function.iterate_succ_apply]
          constructor
          · have h1 := this.1
            rw [show (n + 1) + d = n + (d + 1) by omega] at h1
            exact h1
          · exact this.2
    · rw [if_neg hc]
      refine ⟨le_refl n, fun h => by omega, by simp, fun d hd => by simp at hd⟩

/-- Claim C5: with `maxIterations ≥ 1`, `fit` performs one unconditional EM
step and then at most `maxIterations - 1` further steps; the total number of
EM steps is `fit_steps`, bounded by `maxIterations`; the result is exactly
that many `em_step` iterates followed by a final sync, which leaves the
committed parameters equal to the candidate parameters; and every step after
the first was taken only while the counter was below `maxIterations` and the
parameter distance exceeded the tolerance.  (`fit` is a total function, so
reaching the bound raises no error.) -/
theorem c5_fit_iteration_bound (P : ExternalDensities) (m : GaussianExponentialMixture)
    (h : 1 ≤ m.max_iterations) :
    1 ≤ fit_steps P m ∧
    fit_steps P m ≤ m.max_iterations ∧
    fit P m = sync_parameters ((em_step P)^[fit_steps P m] m) ∧
    (fit P m).parameters = (fit P m).parameters_updated ∧
    (∀ d : ℕ, 1 + d < fit_steps P m →
      1 + d < ((em_step P)^[d + 1] m).max_iterations ∧
      check_parameter_differences ((em_step P)^[d + 1] m) >
        ((em_step P)^[d + 1] m).convergence_tolerance) := by
  obtain ⟨h1, h2, h3, h4⟩ :=
    fitAux_spec P ((em_step P m).max_iterations) (em_step P m) 1 (Nat.sub_le _ _)
  have hms : (em_step P m).max_iterations = m.max_iterations := rfl
  have hsteps : fit_steps P m = (fitAux P (em_step P m) 1).2 := rfl
  refine ⟨h1, ?_, ?_, rfl, ?_⟩
  · have := h2 (by rw [hms]; omega)
    rw [hms] at this
    exact this
  · have key : (em_step P)^[(fitAux P (em_step P m) 1).2] m =
        (em_step P)^[(fitAux P (em_step P m) 1).2 - 1] (em_step P m) := by
      conv_lhs =>
        rw [show (fitAux P (em_step P m) 1).2 = ((fitAux P (em_step P m) 1).2 - 1) + 1 from by
          omega]
      rw [Function.iterate_succ_apply]
    show sync_parameters (fitAux P (em_step P m) 1).1 =
      sync_parameters ((em_step P)^[(fitAux P (em_step P m) 1).2] m)
    rw [h3, key]
  · intro d hd
    have := h4 d (by omega)
    rw [Function.iterate_succ_apply]
    exact this

/-- Witness for C5 at a concrete estimator with `maxIterations = 2`. -/
theorem c5_witness :
    1 ≤ m0.max_iterations ∧
    (1 ≤ fit_steps P0 m0 ∧
     fit_steps P0 m0 ≤ m0.max_iterations ∧
     fit P0 m0 = sync_parameters ((em_step P0)^[fit_steps P0 m0] m0) ∧
     (fit P0 m0).parameters = (fit P0 m0).parameters_updated ∧
     (∀ d : ℕ, 1 + d < fit_steps P0 m0 →
       1 + d < ((em_step P0)^[d + 1] m0).max_iterations ∧
       check_parameter_differences ((em_step P0)^[d + 1] m0) >
         ((em_step P0)^[d + 1] m0).convergence_tolerance)) :=
  ⟨by decide, c5_fit_iteration_bound P0 m0 (by decide)⟩
